import Mathlib

/-!
Verification of the exoplanet transit-window calculator from the
OpenExoplanetCatalogue notebook.

The notebook defines a base class `OEC` (a property bag built from XML
elements), a `Star`, and an `Exoplanet` with derived quantities
(`transit_duration`, `b`, `transit_depth`) and transit-timing methods
(`in_transit`, `transits_in_range`).

We embed the code in two layers:

* the transit-timing methods over exact rationals (`ℚ`, Julian days),
  so that they are executable and decidable.  The methods in the source
  read `transittime` and `period` from the module-level variable `star`
  (literally `star.planet.transittime`), not from `self`; the embedding
  therefore takes the module-level star's planet as an explicit first
  argument `starPlanet`, separate from the receiver `self`.  The transit
  duration enters these methods only through the numeric value of the
  cached `self.transit_duration` property, which we carry as a field.
* the physical formulas (`transit_duration`, `transit_depth`) over `ℝ`,
  with the unit conversion factors of the external unit library
  (solar radius, Jupiter radius and astronomical unit in metres) as
  explicit constants.

Timestamps in the `Transit` named tuple are produced by `isot`
formatting in the source; formatting is modelled as the identity on
instants, so windows carry the underlying rational times.
-/

/-- The `Transit` namedtuple of the source: one transit event,
`(ingress, midpoint, egress)`, represented by the underlying instants
(Julian days, exact rationals). -/
structure TransitQ where
  ingress : ℚ
  midpoint : ℚ
  egress : ℚ
deriving DecidableEq, Repr

/-- Scalar fields of an `Exoplanet` read by the transit-timing methods:
`transittime` (Julian date of a reference mid-transit), `period` (days),
and the numeric value (minutes) of the cached `transit_duration`
property. -/
structure PlanetQ where
  transittime : ℚ
  period : ℚ
  transit_duration : ℚ
deriving DecidableEq, Repr

/-- The window computation shared by both timing methods: for period
index `num`, `midpoint = transittime + num * period` (the module-level
star's fields), `ingress = midpoint - duration/2`,
`egress = midpoint + duration/2` (the receiver's duration, minutes
converted to days). -/
def transit_window (starPlanet self : PlanetQ) (num : ℤ) : TransitQ :=
  let midpoint := starPlanet.transittime + (num : ℚ) * starPlanet.period
  let halfdur := self.transit_duration / 1440 / 2
  ⟨midpoint - halfdur, midpoint, midpoint + halfdur⟩

/-- `Exoplanet.in_transit(t1)` (boolean path, `with_times=False`):
computes `num = int((t1 - transittime).sec // period_delta.sec)`, i.e.
the floor of the elapsed time over the period, checks the windows at
period indices `num` and `num + 1` with inclusive bounds, stopping at
the first hit.  `transittime` and `period` are read from the
module-level `star.planet`; the duration from `self`. -/
def in_transit (starPlanet self : PlanetQ) (t1 : ℚ) : Bool :=
  let num : ℤ := ⌊(t1 - starPlanet.transittime) / starPlanet.period⌋
  let w1 := transit_window starPlanet self num
  if w1.ingress ≤ t1 ∧ t1 ≤ w1.egress then
    true
  else
    let w2 := transit_window starPlanet self (num + 1)
    decide (w2.ingress ≤ t1 ∧ t1 ≤ w2.egress)

/-- The `while True` loop of `Exoplanet.transits_in_range`: starting at
period index `num`, append the window and advance while
`ingress ≤ t1`, and stop (`break`) as soon as `ingress > t1`.
Termination needs a positive period, carried as the hypothesis `hP`. -/
def transitsFrom (starPlanet self : PlanetQ) (t1 : ℚ)
    (hP : 0 < starPlanet.period) (num : ℤ) : List TransitQ :=
  if h : (transit_window starPlanet self num).ingress > t1 then
    []
  else
    transit_window starPlanet self num ::
      transitsFrom starPlanet self t1 hP (num + 1)
termination_by
  (⌊(t1 + self.transit_duration / 1440 / 2 - starPlanet.transittime) /
      starPlanet.period⌋ + 1 - num).toNat
decreasing_by
  simp only [transit_window, gt_iff_lt, not_lt] at h
  have hnum : num ≤
      ⌊(t1 + self.transit_duration / 1440 / 2 - starPlanet.transittime) /
        starPlanet.period⌋ := by
    rw [Int.le_floor, le_div_iff₀ hP]
    linarith
  omega

/-- `Exoplanet.transits_in_range(t0, t1, num_of_transits=10)`: start at
`num = int((t0 - transittime).sec // period_delta.sec) - 1` and walk
forward one period at a time.  The third parameter `num_of_transits`
(default `10` in the source) is never read by the body.  The source
loop diverges for a nonpositive period; the embedding returns `[]`
there (all statements below assume a positive period). -/
def transits_in_range (starPlanet self : PlanetQ) (t0 t1 : ℚ)
    (num_of_transits : ℕ) : List TransitQ :=
  let num : ℤ := ⌊(t0 - starPlanet.transittime) / starPlanet.period⌋ - 1
  if hP : 0 < starPlanet.period then
    transitsFrom starPlanet self t1 hP num
  else
    []

/-- The largest period index whose ingress lies at or before `t1`
(floor of `(t1 + duration/2 - transittime) / period`); the loop of
`transits_in_range` stops right after this index. -/
def lastIndex (starPlanet self : PlanetQ) (t1 : ℚ) : ℤ :=
  ⌊(t1 + self.transit_duration / 1440 / 2 - starPlanet.transittime) /
    starPlanet.period⌋

lemma window_ingress_le_iff (starPlanet self : PlanetQ) (t1 : ℚ)
    (hP : 0 < starPlanet.period) (n : ℤ) :
    (transit_window starPlanet self n).ingress ≤ t1 ↔
      n ≤ lastIndex starPlanet self t1 := by
  simp only [transit_window, lastIndex]
  rw [Int.le_floor, le_div_iff₀ hP]
  constructor <;> intro h <;> linarith

lemma transitsFrom_closed_aux (starPlanet self : PlanetQ) (t1 : ℚ)
    (hP : 0 < starPlanet.period) :
    ∀ (k : ℕ) (num : ℤ), (lastIndex starPlanet self t1 + 1 - num).toNat = k →
      transitsFrom starPlanet self t1 hP num =
        (List.range k).map (fun (j : ℕ) => transit_window starPlanet self (num + (j : ℤ))) := by
  intro k
  induction k with
  | zero =>
    intro num hk
    have hgt : (transit_window starPlanet self num).ingress > t1 := by
      rw [gt_iff_lt, lt_iff_not_le, window_ingress_le_iff starPlanet self t1 hP]
      omega
    rw [transitsFrom, dif_pos hgt]
    simp
  | succ k ih =>
    intro num hk
    have hle : (transit_window starPlanet self num).ingress ≤ t1 := by
      rw [window_ingress_le_iff starPlanet self t1 hP]
      omega
    rw [transitsFrom, dif_neg (by simpa using hle)]
    rw [ih (num + 1) (by omega)]
    rw [List.range_succ_eq_map, List.map_cons, List.map_map]
    refine congrArg₂ _ (by simp) (List.map_congr_left ?_)
    intro j _
    simp only [Function.comp_apply]
    congr 1
    push_cast
    ring

lemma transits_in_range_eq (starPlanet self : PlanetQ) (t0 t1 : ℚ) (k : ℕ)
    (hP : 0 < starPlanet.period) :
    transits_in_range starPlanet self t0 t1 k =
      (List.range ((lastIndex starPlanet self t1 + 1 -
          (⌊(t0 - starPlanet.transittime) / starPlanet.period⌋ - 1)).toNat)).map
        (fun (j : ℕ) => transit_window starPlanet self
          ((⌊(t0 - starPlanet.transittime) / starPlanet.period⌋ - 1) + (j : ℤ))) := by
  rw [transits_in_range, dif_pos hP]
  exact transitsFrom_closed_aux starPlanet self t1 hP _ _ rfl

lemma in_transit_of_in_window (starPlanet self : PlanetQ)
    (hP : 0 < starPlanet.period) (hd : 0 ≤ self.transit_duration)
    (n : ℤ) (t : ℚ)
    (h1 : (transit_window starPlanet self n).ingress ≤ t)
    (h2 : t ≤ (transit_window starPlanet self n).egress) :
    in_transit starPlanet self t = true := by
  simp only [transit_window] at h1 h2
  simp only [in_transit, transit_window]
  set num : ℤ := ⌊(t - starPlanet.transittime) / starPlanet.period⌋ with hnumdef
  have hd2 : 0 ≤ self.transit_duration / 1440 / 2 := by positivity
  have hfl : (num : ℚ) * starPlanet.period ≤ t - starPlanet.transittime := by
    rw [← le_div_iff₀ hP, hnumdef]
    exact Int.floor_le _
  have hfu : t - starPlanet.transittime < ((num : ℚ) + 1) * starPlanet.period := by
    rw [← div_lt_iff₀ hP, hnumdef]
    exact Int.lt_floor_add_one _
  have key :
      (starPlanet.transittime + (num : ℚ) * starPlanet.period -
          self.transit_duration / 1440 / 2 ≤ t ∧
        t ≤ starPlanet.transittime + (num : ℚ) * starPlanet.period +
          self.transit_duration / 1440 / 2) ∨
      (starPlanet.transittime + ((num : ℚ) + 1) * starPlanet.period -
          self.transit_duration / 1440 / 2 ≤ t ∧
        t ≤ starPlanet.transittime + ((num : ℚ) + 1) * starPlanet.period +
          self.transit_duration / 1440 / 2) := by
    by_cases hc : t ≤ starPlanet.transittime + (num : ℚ) * starPlanet.period +
        self.transit_duration / 1440 / 2
    · exact Or.inl ⟨by linarith, hc⟩
    · push_neg at hc
      refine Or.inr ⟨?_, by linarith⟩
      by_contra hcon
      push_neg at hcon
      have h3 : (num : ℚ) * starPlanet.period < (n : ℚ) * starPlanet.period := by
        linarith
      have h4 : (n : ℚ) * starPlanet.period < ((num : ℚ) + 1) * starPlanet.period := by
        linarith
      have h5 : num < n := by
        exact_mod_cast (mul_lt_mul_right hP).mp h3
      have h6 : (n : ℚ) < (num : ℚ) + 1 := (mul_lt_mul_right hP).mp h4
      have h7 : n < num + 1 := by exact_mod_cast h6
      omega
  rcases key with hk | hk
  · rw [if_pos hk]
  · by_cases hc : starPlanet.transittime + (num : ℚ) * starPlanet.period -
        self.transit_duration / 1440 / 2 ≤ t ∧
        t ≤ starPlanet.transittime + (num : ℚ) * starPlanet.period +
          self.transit_duration / 1440 / 2
    · rw [if_pos hc]
    · rw [if_neg hc, decide_eq_true_eq]
      push_cast
      exact hk

/-- C4: for a positive period and a positive computed transit duration,
`in_transit(t)` returns `true` at every instant `t` of the closed
window `[T0 + n*P - d/2, T0 + n*P + d/2]` for any integer `n`; in
particular at the reference transit time `T0` itself, and exactly at
any computed ingress or egress timestamp (inclusive bounds).  `T0` and
`P` here are the fields the method actually reads: those of the
module-level star's planet. -/
theorem in_transit_true_on_window (starPlanet self : PlanetQ)
    (hP : 0 < starPlanet.period) (hd : 0 < self.transit_duration) :
    (∀ (n : ℤ) (t : ℚ), (transit_window starPlanet self n).ingress ≤ t →
        t ≤ (transit_window starPlanet self n).egress →
        in_transit starPlanet self t = true) ∧
      in_transit starPlanet self starPlanet.transittime = true ∧
      (∀ n : ℤ,
        in_transit starPlanet self (transit_window starPlanet self n).ingress = true ∧
        in_transit starPlanet self (transit_window starPlanet self n).egress = true) := by
  have hd2 : 0 ≤ self.transit_duration / 1440 / 2 := by positivity
  have core := in_transit_of_in_window starPlanet self hP hd.le
  refine ⟨core, ?_, ?_⟩
  · refine core 0 starPlanet.transittime ?_ ?_ <;>
      simp [transit_window] <;> linarith
  · intro n
    have hie : (transit_window starPlanet self n).ingress ≤
        (transit_window starPlanet self n).egress := by
      simp only [transit_window]
      linarith
    exact ⟨core n _ le_rfl hie, core n _ hie le_rfl⟩

/-- Witness for C4: for the planet with reference transit time 0,
period 1 day and duration 720 minutes (half a day), the instant
`t = 1/4` is exactly the egress of window 0 and `in_transit` accepts
it. -/
theorem in_transit_true_on_window_witness :
    in_transit ⟨0, 1, 720⟩ ⟨0, 1, 720⟩ (1/4 : ℚ) = true :=
  (in_transit_true_on_window ⟨0, 1, 720⟩ ⟨0, 1, 720⟩ (by norm_num) (by norm_num)).1
    0 (1/4) (by norm_num [transit_window]) (by norm_num [transit_window])

/-- C6: round trip — every window returned by `transits_in_range` has
`in_transit` true at its midpoint (period positive, duration
positive). -/
theorem in_transit_at_returned_midpoint (starPlanet self : PlanetQ)
    (t0 t1 : ℚ) (k : ℕ)
    (hP : 0 < starPlanet.period) (hd : 0 < self.transit_duration)
    (w : TransitQ) (hw : w ∈ transits_in_range starPlanet self t0 t1 k) :
    in_transit starPlanet self w.midpoint = true := by
  rw [transits_in_range_eq starPlanet self t0 t1 k hP] at hw
  simp only [List.mem_map, List.mem_range] at hw
  obtain ⟨j, _, rfl⟩ := hw
  have hd2 : 0 ≤ self.transit_duration / 1440 / 2 := by positivity
  refine in_transit_of_in_window starPlanet self hP hd.le
    (⌊(t0 - starPlanet.transittime) / starPlanet.period⌋ - 1 + (j : ℤ)) _ ?_ ?_ <;>
    simp only [transit_window] <;> linarith

/-- Witness for C6: the window with midpoint 10 is returned by
`transits_in_range` for the planet `(transittime 10, period 2,
duration 1440 min)` on the range `[9, 14]`, and `in_transit` is true at
that midpoint. -/
theorem in_transit_at_returned_midpoint_witness :
    in_transit ⟨10, 2, 1440⟩ ⟨10, 2, 1440⟩ (10 : ℚ) = true :=
  in_transit_at_returned_midpoint ⟨10, 2, 1440⟩ ⟨10, 2, 1440⟩ 9 14 5
    (by norm_num) (by norm_num) ⟨19/2, 10, 21/2⟩
    (by
      rw [transits_in_range_eq _ _ _ _ _ (by norm_num)]
      refine List.mem_map.mpr ⟨2, List.mem_range.mpr ?_, ?_⟩
      · norm_num [lastIndex]
      · norm_num [transit_window])

/-- C3: for a positive period and a duration strictly between 0 and one
period, `transits_in_range(start, end)` returns exactly the windows
with index `n ≥ ⌊(start - T0)/P⌋ - 1` whose ingress is at most `end`
(the loop stops at the first ingress past `end`), in chronological
order, with consecutive midpoints exactly one period apart.  `T0` and
`P` are the fields the method actually reads: those of the module-level
star's planet. -/
theorem transits_in_range_characterized (starPlanet self : PlanetQ)
    (t0 t1 : ℚ) (k : ℕ)
    (hP : 0 < starPlanet.period) (hd : 0 < self.transit_duration)
    (hdP : self.transit_duration / 1440 < starPlanet.period) :
    (∀ w : TransitQ, w ∈ transits_in_range starPlanet self t0 t1 k ↔
        ∃ n : ℤ, ⌊(t0 - starPlanet.transittime) / starPlanet.period⌋ - 1 ≤ n ∧
          (transit_window starPlanet self n).ingress ≤ t1 ∧
          w = transit_window starPlanet self n) ∧
      (∀ (i : ℕ) (h1 : i < (transits_in_range starPlanet self t0 t1 k).length)
          (h2 : i + 1 < (transits_in_range starPlanet self t0 t1 k).length),
          ((transits_in_range starPlanet self t0 t1 k).get ⟨i + 1, h2⟩).midpoint =
            ((transits_in_range starPlanet self t0 t1 k).get ⟨i, h1⟩).midpoint +
              starPlanet.period) ∧
      (transits_in_range starPlanet self t0 t1 k).Pairwise
        (fun w1 w2 => w1.midpoint < w2.midpoint) := by
  rw [transits_in_range_eq starPlanet self t0 t1 k hP]
  refine ⟨?_, ?_, ?_⟩
  · intro w
    simp only [List.mem_map, List.mem_range]
    constructor
    · rintro ⟨j, hj, rfl⟩
      refine ⟨⌊(t0 - starPlanet.transittime) / starPlanet.period⌋ - 1 + (j : ℤ),
        by omega, ?_, rfl⟩
      rw [window_ingress_le_iff starPlanet self t1 hP]
      omega
    · rintro ⟨n, hn1, hn2, rfl⟩
      rw [window_ingress_le_iff starPlanet self t1 hP] at hn2
      refine ⟨(n - (⌊(t0 - starPlanet.transittime) / starPlanet.period⌋ - 1)).toNat,
        by omega, ?_⟩
      congr 1
      omega
  · intro i h1 h2
    simp only [List.get_eq_getElem, List.getElem_map, List.getElem_range]
    simp only [transit_window]
    push_cast
    ring
  · rw [List.pairwise_map]
    refine List.Pairwise.imp ?_ (List.pairwise_lt_range _)
    intro a b hab
    simp only [transit_window]
    have hq : ((a : ℚ)) < (b : ℚ) := by exact_mod_cast hab
    have := mul_lt_mul_of_pos_right
      (show ((⌊(t0 - starPlanet.transittime) / starPlanet.period⌋ - 1 + (a : ℤ) : ℤ) : ℚ) <
        ((⌊(t0 - starPlanet.transittime) / starPlanet.period⌋ - 1 + (b : ℤ) : ℤ) : ℚ) by
          push_cast; linarith) hP
    linarith

/-- Witness for C3: the window with index 0 (midpoint at the reference
transit time 0) is among the windows returned for the range `[0, 2]`
for the planet with period 1 day and duration 720 minutes. -/
theorem transits_in_range_characterized_witness :
    transit_window ⟨0, 1, 720⟩ ⟨0, 1, 720⟩ 0 ∈
      transits_in_range ⟨0, 1, 720⟩ ⟨0, 1, 720⟩ 0 2 10 :=
  ((transits_in_range_characterized ⟨0, 1, 720⟩ ⟨0, 1, 720⟩ 0 2 10
      (by norm_num) (by norm_num) (by norm_num)).1
    (transit_window ⟨0, 1, 720⟩ ⟨0, 1, 720⟩ 0)).mpr
    ⟨0, by norm_num, by norm_num [transit_window], rfl⟩

/-- C7: for a positive period, `transits_in_range` terminates (it is a
total function, defined by well-founded recursion on the distance to
the stopping index) and returns a materialized finite list, whose
length is exactly the number of emitted indices. -/
theorem transits_in_range_finite (starPlanet self : PlanetQ) (t0 t1 : ℚ)
    (k : ℕ) (hP : 0 < starPlanet.period) :
    (transits_in_range starPlanet self t0 t1 k).length =
      (lastIndex starPlanet self t1 + 1 -
        (⌊(t0 - starPlanet.transittime) / starPlanet.period⌋ - 1)).toNat := by
  rw [transits_in_range_eq starPlanet self t0 t1 k hP, List.length_map,
    List.length_range]

/-- Witness for C7: on the range `[0, 2]` with period 1 day, duration
720 minutes and reference transit time 0, exactly four windows (indices
-1, 0, 1, 2) are returned. -/
theorem transits_in_range_finite_witness :
    (transits_in_range ⟨0, 1, 720⟩ ⟨0, 1, 720⟩ 0 2 10).length = 4 := by
  rw [transits_in_range_finite ⟨0, 1, 720⟩ ⟨0, 1, 720⟩ 0 2 10 (by norm_num)]
  norm_num [lastIndex]
  rfl

/-- C10: the third parameter `num_of_transits` (default 10) of
`transits_in_range` is never read by the loop body; the returned list
is identical for every value of it. -/
theorem transits_in_range_ignores_num_of_transits (starPlanet self : PlanetQ)
    (t0 t1 : ℚ) (k1 k2 : ℕ) :
    transits_in_range starPlanet self t0 t1 k1 =
      transits_in_range starPlanet self t0 t1 k2 := rfl

/-- C1 (refutation): `in_transit` and `transits_in_range` read
`transittime` and `period` from the module-level variable `star`
(`star.planet.transittime`, `star.planet.period`), not from the
receiver.  Keeping the receiver `⟨0, 1, 720⟩` and the query instant `0`
fixed while changing only the module-level star's planet flips the
result of `in_transit` and changes the list returned by
`transits_in_range`; conversely, changing the receiver's own
`transittime` and `period` (third conjunct) does not affect the
result. -/
theorem in_transit_reads_module_level_star :
    in_transit ⟨0, 1, 720⟩ ⟨0, 1, 720⟩ 0 = true ∧
    in_transit ⟨1/2, 1, 720⟩ ⟨0, 1, 720⟩ 0 = false ∧
    in_transit ⟨0, 1, 720⟩ ⟨1/2, 999, 720⟩ 0 = true ∧
    transits_in_range ⟨0, 1, 720⟩ ⟨0, 1, 720⟩ 0 2 10 ≠
      transits_in_range ⟨1/2, 1, 720⟩ ⟨0, 1, 720⟩ 0 2 10 := by
  refine ⟨?_, ?_, ?_, ?_⟩
  · norm_num [in_transit, transit_window]
  · norm_num [in_transit, transit_window]
  · norm_num [in_transit, transit_window]
  · rw [transits_in_range_eq _ _ _ _ _ (by norm_num),
      transits_in_range_eq _ _ _ _ _ (by norm_num)]
    norm_num [lastIndex, Int.toNat_ofNat, List.range_succ, List.map_append,
      transit_window, TransitQ.mk.injEq]
    exact ⟨0, by norm_num, by norm_num⟩

/-- Metres per solar radius (the unit library's `u.R_sun`, IAU nominal
value). -/
def R_sun_m : ℝ := 695700000

/-- Metres per Jupiter radius (the unit library's `u.R_jup`, IAU
nominal equatorial value). -/
def R_jup_m : ℝ := 71492000

/-- Metres per astronomical unit (the unit library's `u.AU`). -/
def AU_m : ℝ := 149597870700

/-- Physical fields of an `Exoplanet` (and its parent star's radius, as
`self.star.radius`) used by the derived quantities: `inclination`
(degrees), `period` (days), `semimajoraxis` (AU), `radius` (Jupiter
radii), star radius (solar radii). -/
structure ExoplanetPhys where
  inclination : ℝ
  period : ℝ
  semimajoraxis : ℝ
  radius : ℝ
  star_radius : ℝ

/-- The argument passed to `np.arcsin` inside
`Exoplanet.transit_duration`: the unit library reduces each ratio of
lengths to a dimensionless number (equivalently, converts both lengths
to metres first) and converts the angle from degrees to radians for the
trigonometric calls. -/
noncomputable def arcsin_arg (p : ExoplanetPhys) : ℝ :=
  let i := p.inclination * (Real.pi / 180)
  let r_s := p.star_radius * R_sun_m
  let r_p := p.radius * R_jup_m
  let a := p.semimajoraxis * AU_m
  r_s / a *
    Real.sqrt (((1 + r_p / r_s) ^ 2 - (a / r_s * Real.cos i) ^ 2) /
      (1 - Real.cos i ^ 2))

/-- `Exoplanet.transit_duration`: `(period / np.pi) * np.arcsin(...)`,
the result (days, since the period carries `u.day`) converted
`.to(u.minute)`, i.e. multiplied by 1440. -/
noncomputable def transit_duration (p : ExoplanetPhys) : ℝ :=
  p.period / Real.pi * Real.arcsin (arcsin_arg p) * 1440

/-- Modelled from the spec's formula text (Seager & Mallen-Ornelas):
`duration = (period/π) · arcsin[(R_star/a) · sqrt(((1+R_planet/R_star)²
− ((a/R_star)·cos i)²) / (1 − cos² i))]` in minutes, with all lengths
converted to a common unit (kilometres here) before each ratio is
taken and the inclination in radians for the trigonometric calls. -/
noncomputable def transit_duration_spec_formula (p : ExoplanetPhys) : ℝ :=
  let i := p.inclination * Real.pi / 180
  let rStar := p.star_radius * (R_sun_m / 1000)
  let rPlanet := p.radius * (R_jup_m / 1000)
  let a := p.semimajoraxis * (AU_m / 1000)
  p.period / Real.pi *
    Real.arcsin (rStar / a *
      Real.sqrt (((1 + rPlanet / rStar) ^ 2 - (a / rStar * Real.cos i) ^ 2) /
        (1 - Real.cos i ^ 2))) * 1440

/-- C2: `transit_duration` computes exactly the geometric
transit-duration formula of the spec, in minutes, independently of the
common length unit chosen for the ratios (metres in the code's
reduction, kilometres in the spec-side formula above). -/
theorem transit_duration_matches_spec_formula (p : ExoplanetPhys) :
    transit_duration p = transit_duration_spec_formula p := by
  have key : ∀ x y : ℝ, x / 1000 / (y / 1000) = x / y := by
    intro x y
    rcases eq_or_ne y 0 with h | h
    · simp [h]
    · field_simp
  simp only [transit_duration, transit_duration_spec_formula, arcsin_arg]
  have e0 : p.inclination * Real.pi / 180 = p.inclination * (Real.pi / 180) := by
    ring
  have e1 : p.star_radius * (R_sun_m / 1000) = p.star_radius * R_sun_m / 1000 := by
    ring
  have e2 : p.radius * (R_jup_m / 1000) = p.radius * R_jup_m / 1000 := by
    ring
  have e3 : p.semimajoraxis * (AU_m / 1000) = p.semimajoraxis * AU_m / 1000 := by
    ring
  rw [e0, e1, e2, e3, key, key, key]

/-- A catalogue entry whose arcsin argument is out of the domain
`[-1, 1]`: inclination 60°, the star's radius (in solar radii) chosen
so that the stellar radius equals the semimajor axis of 1 AU. -/
noncomputable def badPlanet : ExoplanetPhys :=
  ⟨60, 2, 1, 1, AU_m / R_sun_m⟩

lemma arcsin_arg_badPlanet_eq :
    arcsin_arg badPlanet =
      Real.sqrt (((1 + R_jup_m / AU_m) ^ 2 - (1 / 2) ^ 2) / (1 - (1 / 2) ^ 2)) := by
  have hRs : (R_sun_m : ℝ) ≠ 0 := by norm_num [R_sun_m]
  have hAU : (AU_m : ℝ) ≠ 0 := by norm_num [AU_m]
  have h60 : Real.cos ((60 : ℝ) * (Real.pi / 180)) = 1 / 2 := by
    have h : (60 : ℝ) * (Real.pi / 180) = Real.pi / 3 := by ring
    rw [h, Real.cos_pi_div_three]
  simp only [arcsin_arg, badPlanet, h60, one_mul]
  rw [div_mul_cancel₀ _ hRs, div_self hAU, one_mul, one_mul]

lemma one_lt_arcsin_arg_badPlanet : 1 < arcsin_arg badPlanet := by
  rw [arcsin_arg_badPlanet_eq]
  have hρ : (0 : ℝ) < R_jup_m / AU_m := by
    apply div_pos <;> norm_num [R_jup_m, AU_m]
  have h1 : (1 : ℝ) < ((1 + R_jup_m / AU_m) ^ 2 - (1 / 2) ^ 2) / (1 - (1 / 2) ^ 2) := by
    rw [lt_div_iff₀ (by norm_num)]
    nlinarith [hρ]
  calc (1 : ℝ) = Real.sqrt 1 := Real.sqrt_one.symm
    _ < _ := Real.sqrt_lt_sqrt (by norm_num) h1

/-- C5 (refutation): at `badPlanet` the argument of `arcsin` exceeds 1,
yet `transit_duration` does not fail with a numeric-domain error — the
computation is total and produces a numeric value (in floating point a
silent `NaN` with only a runtime warning; in this real-valued model the
clamped value `(period/π)·(π/2)·1440 = 1440` minutes).  No
`NumericDomain` (or any other) error path exists in the code. -/
theorem transit_duration_out_of_domain_returns_value :
    1 < arcsin_arg badPlanet ∧ transit_duration badPlanet = 1440 := by
  refine ⟨one_lt_arcsin_arg_badPlanet, ?_⟩
  unfold transit_duration
  rw [Real.arcsin_of_one_le one_lt_arcsin_arg_badPlanet.le]
  have hπ : Real.pi ≠ 0 := Real.pi_ne_zero
  show badPlanet.period / Real.pi * (Real.pi / 2) * 1440 = 1440
  have hp : badPlanet.period = 2 := rfl
  rw [hp]
  field_simp

/-- C5 (amended): when the argument of `arcsin` is out of domain
(≥ 1), `transit_duration` does not raise any error; it still returns a
numeric value — in the real-valued model, the one obtained with the
arcsin clamped to `π/2`, i.e. `720 · period` minutes (floating point
would produce a silent `NaN` instead of an error). -/
theorem transit_duration_total_above_domain (p : ExoplanetPhys)
    (h : 1 ≤ arcsin_arg p) :
    transit_duration p = 720 * p.period := by
  unfold transit_duration
  rw [Real.arcsin_of_one_le h]
  have hπ : Real.pi ≠ 0 := Real.pi_ne_zero
  field_simp
  ring

/-- Witness for the amended C5: applying the out-of-domain behaviour at
the concrete `badPlanet`. -/
theorem transit_duration_total_above_domain_witness :
    transit_duration badPlanet = 720 * badPlanet.period :=
  transit_duration_total_above_domain badPlanet one_lt_arcsin_arg_badPlanet.le

/-- `Exoplanet.transit_depth`: `(r_p / r_s) ** 2` with both radii
converted `.to(u.m)` first. -/
noncomputable def transit_depth (p : ExoplanetPhys) : ℝ :=
  let r_s := p.star_radius * R_sun_m
  let r_p := p.radius * R_jup_m
  (r_p / r_s) ^ 2

/-- Modelled from the spec's words for C8: `(R_planet/R_star)²` with
both radii expressed in the same length unit — here solar radii (the
planet radius rescaled by `R_jup/R_sun`). -/
noncomputable def transit_depth_spec_formula (p : ExoplanetPhys) : ℝ :=
  (p.radius * (R_jup_m / R_sun_m) / p.star_radius) ^ 2


/-- C8: `transit_depth` returns `(R_planet/R_star)²` with both radii in
a common unit (the choice of unit is immaterial) for every pair of
positive radii; for the pairs with `R_planet < R_star` the value
additionally lies strictly in `(0, 1)`. -/
theorem transit_depth_correct (p : ExoplanetPhys)
    (hs : 0 < p.star_radius) (hr : 0 < p.radius) :
    transit_depth p = transit_depth_spec_formula p ∧
      (p.radius * R_jup_m < p.star_radius * R_sun_m →
        0 < transit_depth p ∧ transit_depth p < 1) := by
  have hRs : (0 : ℝ) < R_sun_m := by norm_num [R_sun_m]
  have hRj : (0 : ℝ) < R_jup_m := by norm_num [R_jup_m]
  have hx : 0 < p.radius * R_jup_m := by positivity
  have hy : 0 < p.star_radius * R_sun_m := by positivity
  refine ⟨?_, fun hlt => ⟨?_, ?_⟩⟩
  · simp only [transit_depth, transit_depth_spec_formula]
    congr 1
    field_simp
    ring
  · simp only [transit_depth]
    exact pow_pos (div_pos hx hy) 2
  · simp only [transit_depth]
    have h1 : p.radius * R_jup_m / (p.star_radius * R_sun_m) < 1 :=
      (div_lt_one hy).mpr hlt
    have h0 : 0 ≤ p.radius * R_jup_m / (p.star_radius * R_sun_m) :=
      (div_pos hx hy).le
    exact pow_lt_one₀ h0 h1 (by norm_num)

/-- Witness for C8: a star of one solar radius and a planet of one
Jupiter radius. -/
theorem transit_depth_correct_witness :
    transit_depth ⟨0, 0, 0, 1, 1⟩ = transit_depth_spec_formula ⟨0, 0, 0, 1, 1⟩ ∧
      (0 < transit_depth ⟨0, 0, 0, 1, 1⟩ ∧ transit_depth ⟨0, 0, 0, 1, 1⟩ < 1) := by
  have h := transit_depth_correct ⟨0, 0, 0, 1, 1⟩ (by norm_num) (by norm_num)
  exact ⟨h.1, h.2 (by norm_num [R_jup_m, R_sun_m])⟩

/-- A value stored by a successful `setattr` in
`OEC._build_properties`: either the successfully parsed float
(`float(elem.text)`) or, on a `ValueError`, the original text. -/
inductive PropValue
  | num (x : ℚ)
  | str (s : String)
deriving DecidableEq, Repr

/-- The single attribute namespace of the Python object includes the
`names` alias list itself: a `(tag = "names")` element overwrites it
through `setattr`.  The slot therefore holds either the alias list or
whatever value a `setattr` clobbered it with. -/
inductive NamesSlot
  | aliases (l : List (Option String))
  | overwritten (v : PropValue)
deriving DecidableEq, Repr

/-- The error `OEC._build_properties` can propagate: an uncaught
`AttributeError` — either from `self.names.append(...)` after `names`
was clobbered by a non-list value, or from the `setattr` inside the
`except ValueError` handler hitting a read-only property (that second
`setattr` is not protected by the surrounding try). -/
inductive BuildError
  | attributeError
deriving DecidableEq, Repr

/-- The dynamic state `OEC._build_properties` mutates: the ordinary
dynamic attributes (`setattr`, later assignments overwrite) and the
`names` slot of the same namespace.  An element's text may be absent
(`elem.text is None`), hence `Option String` both in the input pairs
and in the alias list. -/
structure OECBag where
  attr : String → Option PropValue
  names : NamesSlot

/-- The state of a fresh `OEC` object after `__init__`
(`self.names = list()`, no other dynamic attributes yet). -/
def OECBag.empty : OECBag :=
  ⟨fun _ => none, NamesSlot.aliases []⟩

/-- A successful `setattr(self, tag, v)` on an ordinary attribute:
later assignments to the same tag overwrite earlier ones. -/
def OECBag.setattr (b : OECBag) (tag : String) (v : PropValue) : OECBag :=
  ⟨fun t => if t = tag then some v else b.attr t, b.names⟩

/-- The result of `float(text)` followed by the `except ValueError`
fallback: the parsed number on success, the original text on failure.
Python's `float` parser is an external collaborator; it enters as the
parameter `parseFloat`. -/
def parsed_value (parseFloat : String → Option ℚ) (text : String) : PropValue :=
  match parseFloat text with
  | some x => PropValue.num x
  | none => PropValue.str text

/-- One iteration of the loop in `OEC._build_properties`.  A `name` tag
runs `self.names.append(elem.text)` — an `AttributeError` (alias list
clobbered by a non-list value) propagates, since the append is outside
the try.  Any other tag attempts `setattr(self, tag, float(text))`:
a missing text (`TypeError` from `float(None)`) is skipped silently; a
`setattr` on a read-only property of the receiver's class (`readonly`,
e.g. `Exoplanet.transit_duration`) raises `AttributeError`, caught by
`except AttributeError: pass` when the text parsed, but propagating
uncaught when it is the fallback `setattr(self, tag, text)` inside the
`except ValueError` handler; a writable tag equal to `"names"`
overwrites the alias list itself. -/
def build_step (parseFloat : String → Option ℚ) (readonly : String → Bool)
    (b : OECBag) (e : String × Option String) : Except BuildError OECBag :=
  if e.1 = "name" then
    match b.names with
    | NamesSlot.aliases l => Except.ok ⟨b.attr, NamesSlot.aliases (l ++ [e.2])⟩
    | NamesSlot.overwritten _ => Except.error BuildError.attributeError
  else
    match e.2 with
    | none => Except.ok b
    | some text =>
      match parseFloat text with
      | some x =>
        if readonly e.1 then Except.ok b
        else if e.1 = "names" then
          Except.ok ⟨b.attr, NamesSlot.overwritten (PropValue.num x)⟩
        else Except.ok (b.setattr e.1 (PropValue.num x))
      | none =>
        if readonly e.1 then Except.error BuildError.attributeError
        else if e.1 = "names" then
          Except.ok ⟨b.attr, NamesSlot.overwritten (PropValue.str text)⟩
        else Except.ok (b.setattr e.1 (PropValue.str text))

/-- `OEC._build_properties(element)`: run the loop body over the
ordered child elements, each a `(tag, text)` pair, propagating an
uncaught `AttributeError`. -/
def _build_properties (parseFloat : String → Option ℚ)
    (readonly : String → Bool) (b : OECBag) :
    List (String × Option String) → Except BuildError OECBag
  | [] => Except.ok b
  | e :: rest =>
    match build_step parseFloat readonly b e with
    | Except.ok b2 => _build_properties parseFloat readonly b2 rest
    | Except.error err => Except.error err

/-- The `name` property: `self.names[0]`; `none` models the failure
(`IndexError` on an empty alias list, `TypeError` if the list was
clobbered by a non-subscriptable value). -/
def OECBag.name (b : OECBag) : Option (Option String) :=
  match b.names with
  | NamesSlot.aliases l => l.head?
  | NamesSlot.overwritten _ => none

/-- The read-only properties of the receiver classes of
`_build_properties` in this source (`@property` without a setter on
`OEC`/`Exoplanet`): `setattr` on these raises `AttributeError`. -/
def exoplanetReadonly : String → Bool :=
  fun s =>
    s = "name" || s = "transit_duration" || s = "b" ||
      s = "impact_parameter" || s = "transit_depth"

/-- Modelled from the spec's words for C9: the value expected under a
non-`name` tag after building — the last pair with that tag and a
present text wins, parsed as a float when possible and kept as raw text
otherwise; pairs with missing text leave the previous value in
place. -/
def expected_attr (parseFloat : String → Option ℚ) (tag : String)
    (elems : List (String × Option String)) (dflt : Option PropValue) :
    Option PropValue :=
  elems.foldl
    (fun acc e =>
      if e.1 = tag then
        match e.2 with
        | none => acc
        | some text => some (parsed_value parseFloat text)
      else acc)
    dflt

lemma build_safe_aux (parseFloat : String → Option ℚ) (readonly : String → Bool) :
    ∀ elems : List (String × Option String),
      (∀ e ∈ elems, e.1 ≠ "name" → readonly e.1 = false ∧ e.1 ≠ "names") →
      ∀ (b : OECBag) (l : List (Option String)), b.names = NamesSlot.aliases l →
      ∃ b2 : OECBag,
        _build_properties parseFloat readonly b elems = Except.ok b2 ∧
        b2.names = NamesSlot.aliases
          (l ++ (elems.filter (fun e => e.1 = "name")).map Prod.snd) ∧
        (∀ tag : String, tag ≠ "name" →
          b2.attr tag = expected_attr parseFloat tag elems (b.attr tag)) := by
  intro elems
  induction elems with
  | nil =>
    intro _ b l hbl
    exact ⟨b, rfl, by simpa using hbl, fun tag _ => rfl⟩
  | cons e rest ih =>
    intro hsafe b l hbl
    have hrest : ∀ x ∈ rest, x.1 ≠ "name" → readonly x.1 = false ∧ x.1 ≠ "names" :=
      fun x hx => hsafe x (List.mem_cons_of_mem e hx)
    by_cases hname : e.1 = "name"
    · have hstep : build_step parseFloat readonly b e =
          Except.ok ⟨b.attr, NamesSlot.aliases (l ++ [e.2])⟩ := by
        simp [build_step, hname, hbl]
      obtain ⟨b2, hok, hnames, hattr⟩ :=
        ih hrest ⟨b.attr, NamesSlot.aliases (l ++ [e.2])⟩ (l ++ [e.2]) rfl
      refine ⟨b2, ?_, ?_, ?_⟩
      · show (match build_step parseFloat readonly b e with
          | Except.ok b2 => _build_properties parseFloat readonly b2 rest
          | Except.error err => Except.error err) = Except.ok b2
        rw [hstep]
        exact hok
      · rw [hnames]
        simp [hname, List.filter_cons, List.append_assoc]
      · intro tag htag
        rw [hattr tag htag]
        have hne : ¬(e.1 = tag) := by
          rw [hname]
          exact fun hcon => htag hcon.symm
        simp [expected_attr, List.foldl_cons, hne]
    · obtain ⟨hro, hns⟩ := hsafe e (List.mem_cons_self e rest) hname
      rcases he : e.2 with _ | text
      · have hstep : build_step parseFloat readonly b e = Except.ok b := by
          simp [build_step, hname, he]
        obtain ⟨b2, hok, hnames, hattr⟩ := ih hrest b l hbl
        refine ⟨b2, ?_, ?_, ?_⟩
        · show (match build_step parseFloat readonly b e with
            | Except.ok b2 => _build_properties parseFloat readonly b2 rest
            | Except.error err => Except.error err) = Except.ok b2
          rw [hstep]
          exact hok
        · rw [hnames]
          simp [hname, List.filter_cons]
        · intro tag htag
          rw [hattr tag htag]
          by_cases het : e.1 = tag <;>
            simp [expected_attr, List.foldl_cons, he, het]
      · have hstep : build_step parseFloat readonly b e =
            Except.ok (b.setattr e.1 (parsed_value parseFloat text)) := by
          rcases hpf : parseFloat text with _ | x <;>
            simp [build_step, hname, he, hro, hns, parsed_value, hpf]
        obtain ⟨b2, hok, hnames, hattr⟩ :=
          ih hrest (b.setattr e.1 (parsed_value parseFloat text)) l hbl
        refine ⟨b2, ?_, ?_, ?_⟩
        · show (match build_step parseFloat readonly b e with
            | Except.ok b2 => _build_properties parseFloat readonly b2 rest
            | Except.error err => Except.error err) = Except.ok b2
          rw [hstep]
          exact hok
        · rw [hnames]
          simp [hname, List.filter_cons]
        · intro tag htag
          rw [hattr tag htag]
          have hdflt : (b.setattr e.1 (parsed_value parseFloat text)).attr tag =
              if e.1 = tag then some (parsed_value parseFloat text)
              else b.attr tag := by
            by_cases het : e.1 = tag
            · simp [OECBag.setattr, het]
            · have h2 : ¬(tag = e.1) := fun hcon => het hcon.symm
              simp [OECBag.setattr, het, h2]
          rw [hdflt]
          simp [expected_attr, List.foldl_cons, he]

/-- The `float` parser instance used by the C9 theorems: parses exactly
the string `1.5`. -/
def sampleParseFloat : String → Option ℚ :=
  fun s => if s = "1.5" then some (3/2) else none

/-- The element sequence used by the C9 witness: an alias, a numeric
field, a non-numeric field and a field with missing text — all tags
writable instance attributes. -/
def sampleElems : List (String × Option String) :=
  [("name", some "Kepler-1b"), ("period", some "1.5"),
   ("radius", some "big"), ("mass", none)]

/-- C9 (refutation of the unrestricted claim): the build does not store
every non-`name` field with present text.  A `transit_duration` tag
hits the read-only `Exoplanet.transit_duration` property: with
parseable text the `except AttributeError: pass` silently drops the
field (first conjuncts: build succeeds but nothing is stored although
the text parses); with unparseable text the fallback `setattr` inside
the `except ValueError` handler raises an uncaught `AttributeError`;
and a `names` tag clobbers the alias list itself, making a later
`name` append fail. -/
theorem build_properties_counterexample :
    _build_properties sampleParseFloat exoplanetReadonly OECBag.empty
        [("transit_duration", some "1.5")] = Except.ok OECBag.empty ∧
      OECBag.empty.attr "transit_duration" = none ∧
      sampleParseFloat "1.5" = some (3/2) ∧
      _build_properties sampleParseFloat exoplanetReadonly OECBag.empty
        [("transit_duration", some "big")] =
        Except.error BuildError.attributeError ∧
      _build_properties sampleParseFloat exoplanetReadonly OECBag.empty
        [("names", some "big"), ("name", some "x")] =
        Except.error BuildError.attributeError :=
  ⟨rfl, rfl, rfl, rfl, rfl⟩

/-- C9 (amended): for sequences whose non-`name` tags are all writable
plain instance attributes — not read-only properties of the receiver's
class and not the alias-list attribute `names` itself — building a
fresh record succeeds and behaves as claimed: a `name` tag appends the
text to the alias list; any other tag stores the parsed float when the
text parses, the original text on parse failure, and is skipped
silently when the text is missing (later pairs overwriting earlier
ones); afterwards the `name` accessor returns the first alias and
fails (`IndexError`, modelled as `none`) exactly when no alias was
recorded. -/
theorem build_properties_correct (parseFloat : String → Option ℚ)
    (readonly : String → Bool)
    (elems : List (String × Option String)) (tag : String)
    (htag : tag ≠ "name")
    (hsafe : ∀ e ∈ elems, e.1 ≠ "name" → readonly e.1 = false ∧ e.1 ≠ "names") :
    ∃ b : OECBag,
      _build_properties parseFloat readonly OECBag.empty elems = Except.ok b ∧
      b.names = NamesSlot.aliases
        ((elems.filter (fun e => e.1 = "name")).map Prod.snd) ∧
      b.attr tag = expected_attr parseFloat tag elems none ∧
      (b.name = none ↔ elems.filter (fun e => e.1 = "name") = []) ∧
      (∀ (a : Option String) (tl : List (Option String)),
        b.names = NamesSlot.aliases (a :: tl) → b.name = some a) := by
  obtain ⟨b, hok, hnames, hattr⟩ :=
    build_safe_aux parseFloat readonly elems hsafe OECBag.empty [] rfl
  rw [List.nil_append] at hnames
  refine ⟨b, hok, hnames, ?_, ?_, ?_⟩
  · have h := hattr tag htag
    rwa [show OECBag.empty.attr tag = none from rfl] at h
  · simp only [OECBag.name, hnames]
    simp [List.head?_eq_none_iff]
  · intro a tl h
    simp only [OECBag.name, h]
    rfl

/-- Witness for the amended C9: on the sample elements the build
succeeds, the alias list holds the one name, the parsed `period` is
stored as a number, the text-missing `mass` stays absent, and `name`
returns the first alias. -/
theorem build_properties_correct_witness :
    ∃ b : OECBag,
      _build_properties sampleParseFloat exoplanetReadonly OECBag.empty
        sampleElems = Except.ok b ∧
      b.names = NamesSlot.aliases [some "Kepler-1b"] ∧
      b.attr "period" = some (PropValue.num (3/2)) ∧
      b.attr "mass" = none ∧
      b.name = some (some "Kepler-1b") := by
  obtain ⟨b, hok, hnames, hattr, hnone, hhead⟩ :=
    build_properties_correct sampleParseFloat exoplanetReadonly sampleElems
      "period" (by decide) (by decide)
  obtain ⟨b2, hok2, hnames2, hattr2, hnone2, hhead2⟩ :=
    build_properties_correct sampleParseFloat exoplanetReadonly sampleElems
      "mass" (by decide) (by decide)
  have hb2 : b2 = b := by
    rw [hok] at hok2
    exact (Except.ok.inj hok2).symm
  refine ⟨b, hok, hnames.trans (by rfl), hattr.trans (by rfl), ?_, ?_⟩
  · rw [← hb2]
    exact hattr2.trans (by rfl)
  · exact hhead (some "Kepler-1b") [] (hnames.trans (by rfl))
